import Mathlib

/-!
Verification of the refiner-stats core of the vana-cli repository.

The TypeScript sources are shallowly embedded:

* JavaScript strings are modelled as Lean strings (one `Char` per UTF-16
  code unit for the ASCII data all claims are about; astral characters,
  which JavaScript counts as two units, are out of scope of every claim).
* JavaScript numbers appearing as integer counts are modelled as `Nat`,
  fractional statistics as `Rat` (IEEE-754 rounding is not modelled; no
  claim computes with a fractional field).
* Effectful code (configuration lookup, the two HTTP clients, terminal
  output) is embedded by explicit parameter passing: a configuration
  lookup function, a `FetchEnv` of fetch outcomes, and an accumulated
  list of emitted `CliMessage`s plus a trace of `ClientCall`s.
* Platform builtins with locale- or float-dependent output
  (`toLocaleString`, `Date#toLocaleString`, `Number#toFixed`,
  `JSON.stringify`) are parameters of a `Platform` record; none of the
  claims depend on their output text.
* `chalk` colouring is the identity (terminal colouring is explicitly
  out of scope of the specification).
-/

namespace Vana

/-! ## JavaScript string primitives -/

/-- Take the first `n` characters of a string (JavaScript
`s.substring(0, n)` for `0 ≤ n`). -/
def strTake (s : String) (n : Nat) : String :=
  String.mk (s.data.take n)

/-- Drop the first `n` characters of a string (JavaScript
`s.substring(n)` for `0 ≤ n ≤ s.length`; JavaScript clamps a negative
start index to `0`, which matches truncated `Nat` subtraction at every
call site below). -/
def strDrop (s : String) (n : Nat) : String :=
  String.mk (s.data.drop n)

/-- Length of a string in characters (JavaScript `s.length`). -/
def strLen (s : String) : Nat :=
  s.data.length

/-! ## Decimal rendering of a natural number

Embedding of JavaScript `Number.prototype.toString` (radix 10) for the
non-negative integers the command handles: the usual base-10 digit
string with no leading zeros, sign or separators.  Fuel-based so that
the kernel can evaluate it. -/

/-- Digit characters of `n`, most significant first; empty for `n = 0`.
The fuel argument only serves termination: any `fuel ≥ n` gives the
digits of `n`. -/
def digitCharsAux : Nat → Nat → List Char
  | 0, _ => []
  | fuel + 1, n =>
    if n = 0 then []
    else digitCharsAux fuel (n / 10) ++ [Char.ofNat (48 + n % 10)]

/-- JavaScript `n.toString()` for a non-negative integer `n`. -/
def natToString (n : Nat) : String :=
  if n = 0 then "0" else String.mk (digitCharsAux (n + 1) n)

/-! ## JavaScript `parseInt`

Embedding of ECMAScript `parseInt(string)` with no radix argument:
skip leading whitespace, read an optional sign, switch to radix 16 on
a `0x`/`0X` prefix, then read the longest prefix of radix digits.  No
digits means `NaN`, modelled as `none`.  (Float precision loss on
astronomically long digit strings is not modelled.) -/

/-- JavaScript whitespace recognised by `parseInt`. -/
def isJsWhitespace (c : Char) : Bool :=
  c = ' ' ∨ c = '\t' ∨ c = '\n' ∨ c = '\r' ∨ c = Char.ofNat 11 ∨ c = Char.ofNat 12

/-- Value of a digit character in the given radix (10 or 16). -/
def digitVal (radix : Nat) (c : Char) : Option Nat :=
  if '0' ≤ c ∧ c ≤ '9' then some (c.toNat - 48)
  else if radix = 16 ∧ 'a' ≤ c ∧ c ≤ 'f' then some (c.toNat - 97 + 10)
  else if radix = 16 ∧ 'A' ≤ c ∧ c ≤ 'F' then some (c.toNat - 65 + 10)
  else none

/-- Whether `c` is a digit in the given radix. -/
def isRadixDigit (radix : Nat) (c : Char) : Bool :=
  (digitVal radix c).isSome

/-- Positional value of a digit string. -/
def digitsToNat (radix : Nat) (cs : List Char) : Nat :=
  cs.foldl (fun acc c => acc * radix + ((digitVal radix c).getD 0)) 0

/-- The optional sign step of `parseInt`. -/
def jsParseIntSign : List Char → Int × List Char
  | '-' :: rest => (-1, rest)
  | '+' :: rest => (1, rest)
  | cs => (1, cs)

/-- The radix step of `parseInt` with no radix argument: a `0x`/`0X`
prefix switches to 16, anything else stays decimal. -/
def jsParseIntRadix : List Char → Nat × List Char
  | '0' :: 'x' :: rest => (16, rest)
  | '0' :: 'X' :: rest => (16, rest)
  | cs => (10, cs)

/-- ECMAScript `parseInt(s)`; `none` is `NaN`. -/
def jsParseInt (s : String) : Option Int :=
  let sr := jsParseIntSign (s.data.dropWhile isJsWhitespace)
  let rr := jsParseIntRadix sr.2
  let digits := rr.2.takeWhile (isRadixDigit rr.1)
  if digits.isEmpty then none
  else some (sr.1 * (digitsToNat rr.1 digits : Nat))

/-! ## Formatting utilities (src/utils/formatting.ts, chalk = identity) -/

/-- Embedding of `maskSensitiveValue` from src/utils/formatting.ts.
The JavaScript truthiness test `value` is `value ≠ ""`. -/
def maskSensitiveValue (key : String) (value : String) : String :=
  if key = "wallet_private_key" ∧ value ≠ "" then
    if strLen value > 10 then
      strTake value 6 ++ "..." ++ strDrop value (strLen value - 4)
    else
      strTake value 4 ++ "..." ++ strDrop value (strLen value - 2)
  else value

/-- Embedding of `formatConfigPair` at its default options
(`maskSensitive = false`, `indent = 2`) with a defined value, the only
form the stats command uses. -/
def formatConfigPair (key : String) (value : String) : String :=
  "  " ++ key ++ ": " ++ value

/-- Embedding of `formatTitle`. -/
def formatTitle (title : String) : String :=
  title ++ "\n" ++ String.mk (List.replicate (min (strLen title) 50) '─')

/-- Embedding of `formatSectionHeader` without a description. -/
def formatSectionHeader (title : String) : String :=
  "\n" ++ title ++ ":"

/-- Embedding of `formatExample`. -/
def formatExample (command : String) : String :=
  "  $ " ++ command

/-- Embedding of `Output.examples`. -/
def outputExamples (title : String) (commands : List String) : String :=
  formatSectionHeader title ++ "\n"
    ++ String.join (commands.map (fun c => formatExample c ++ "\n"))

/-- Embedding of `formatHelp` (chalk.gray = identity). -/
def formatHelp (message : String) : String :=
  message

/-- Embedding of `Output.troubleshooting`. -/
def outputTroubleshooting (title : String) (steps : List String) : String :=
  formatSectionHeader title ++ "\n"
    ++ String.join (steps.map (fun s => formatHelp ("  • " ++ s) ++ "\n"))

/-! ## Stable descending sort on tallies

The source sorts `Object.entries(...)` with the comparator
`([,a],[,b]) => b - a`.  ECMAScript 2019 requires `Array.prototype.sort`
to be stable, so the result is the unique permutation of the entry list
that is non-increasing in the counts and keeps entries with equal counts
in encounter order.  The embedding is a stable insertion sort, which
produces exactly that permutation. -/

/-- Insert `x` in front of the first entry whose count is `≤` the count
of `x`; entries with strictly greater counts stay in front of `x`. -/
def insertDesc (x : String × Nat) : List (String × Nat) → List (String × Nat)
  | [] => [x]
  | y :: ys => if y.2 ≤ x.2 then x :: y :: ys else y :: insertDesc x ys

/-- Stable sort of a tally list by descending count: the embedding of
`.sort(([,a],[,b]) => b - a)` on `Object.entries` of a count record. -/
def sortByCountDesc : List (String × Nat) → List (String × Nat)
  | [] => []
  | x :: xs => insertDesc x (sortByCountDesc xs)

/-! ## Data model (the DTO interfaces)

JavaScript records such as `Record<string, number>` are modelled as
association lists in insertion order, which is the order
`Object.entries` yields for the non-index keys these records hold. -/

/-- Embedding of the `RefinerIngestionStatsResponse` DTO
(src/sdk/query/dto/refiner-ingestion-stats-response.ts). -/
structure RefinerIngestionStatsResponse where
  refiner_id : Nat
  total_file_contributions : Nat
  total_data_rows : Nat
  first_ingestion_at : Option String
  last_ingestion_at : Option String
  total_queries_executed : Nat
  successful_queries : Nat
  failed_queries : Nat
  query_errors_by_type : List (String × Nat)
  average_ingestion_rate_per_hour : Rat
  ingestion_period_days : Option Rat
  unique_contributors : Nat
  rows_per_table : List (String × Nat)
  last_processed_block : Option Nat
deriving DecidableEq, Repr

/-- Embedding of a recent-error record of the execution DTO. -/
structure RecentError where
  error : String
  timestamp : String
  job_id : Option String
deriving DecidableEq, Repr

/-- Embedding of the `RefinerExecutionStatsResponse` DTO
(src/sdk/refine/dto/refiner-execution-stats-response.ts). -/
structure RefinerExecutionStatsResponse where
  refiner_id : Nat
  total_jobs : Nat
  successful_jobs : Nat
  failed_jobs : Nat
  processing_jobs : Nat
  submitted_jobs : Nat
  first_job_at : Option String
  last_job_at : Option String
  average_processing_time_seconds : Rat
  success_rate : Rat
  jobs_per_hour : Rat
  processing_period_days : Option Rat
  error_types : List (String × Nat)
  recent_errors : List RecentError
deriving DecidableEq, Repr

/-- Embedding of the `CombinedRefinerStats` interface of
src/commands/stats/RefinerStats.command.ts.  A missing optional field is
`none`. -/
structure CombinedRefinerStats where
  refiner_id : Nat
  ingestion_stats : Option RefinerIngestionStatsResponse
  execution_stats : Option RefinerExecutionStatsResponse
  ingestion_error : Option String
  execution_error : Option String
deriving DecidableEq, Repr

/-! ## Effect model for the command -/

/-- One terminal message emitted through the `MessageHandler`:
`error` and `warning` go to stderr, `success` and `write` to stdout. -/
inductive CliMessage where
  | error (s : String)
  | warning (s : String)
  | success (s : String)
  | write (s : String)
deriving DecidableEq, Repr

/-- One invocation of a stats client, recording the base URL, refiner id
and private key it was given. -/
inductive ClientCall where
  | ingestion (url : String) (refinerId : Nat) (privateKey : String)
  | execution (url : String) (refinerId : Nat) (privateKey : String)
deriving DecidableEq, Repr

/-- Outcomes of the two HTTP clients, as functions of base URL, refiner
id and private key: `Except.error` is a thrown fetch error whose message
is the string carried. -/
structure FetchEnv where
  ingestFetch : String → Nat → String → Except String RefinerIngestionStatsResponse
  execFetch : String → Nat → String → Except String RefinerExecutionStatsResponse

/-- Platform builtins with locale- or float-formatting-dependent output.
They only produce display text; no claim depends on them. -/
structure Platform where
  numToLocale : Nat → String
  dateToLocale : String → String
  toFixed : Rat → Nat → String
  jsonStringify : CombinedRefinerStats → String

/-- The option fields of `RefinerStatsCommand` after CLI parsing.
`none` is an omitted optional flag. -/
structure CmdOptions where
  refinerId : String
  privateKey : Option String := none
  queryEndpoint : Option String := none
  refineEndpoint : Option String := none
  json : Bool := false
  verbose : Bool := false
  includeRaw : Bool := false

/-! ## RefinerStats command (src/commands/stats/RefinerStats.command.ts) -/

/-- Collapse a JavaScript-falsy string value to `none`: the command only
ever tests these values for truthiness or uses them when truthy, so an
empty string behaves exactly like an absent value at every use site. -/
def truthyStr : Option String → Option String
  | some s => if s = "" then none else some s
  | none => none

/-- Resolution of one configuration field: the explicit CLI value if
truthy, otherwise the configuration lookup (whose failure, `none`, just
leaves the field unset).  Embeds the `let x = option; if (!x) try x =
config(...) catch {}` pattern of `getConfiguration`. -/
def resolveField (cliValue : Option String) (configValue : Option String) : Option String :=
  match truthyStr cliValue with
  | some s => some s
  | none => truthyStr configValue

/-- Embedding of `RefinerStatsCommand.validateRefinerId`: `parseInt` the
raw option, reject `NaN` and negative values with `none`. -/
def validateRefinerId (refinerId : String) : Option Int :=
  match jsParseInt refinerId with
  | none => none
  | some n => if n < 0 then none else some n

/-- Embedding of `RefinerStatsCommand.getConfiguration`.  The first
component is `none` when the source returns an all-`undefined` record
(missing private key, or no endpoint at all); the second component is
the list of messages emitted. -/
def getConfiguration (config : String → Option String) (opts : CmdOptions) :
    Option (String × Option String × Option String) × List CliMessage :=
  let privateKey := resolveField opts.privateKey (config "wallet_private_key")
  match privateKey with
  | none =>
    (none,
      [CliMessage.error "No private key provided.",
       CliMessage.write (outputExamples "Set private key with"
         ["vana config set wallet_private_key 63...",
          "or use --private-key option"])])
  | some pk =>
    let queryApiUrl := resolveField opts.queryEndpoint (config "query_engine_endpoint")
    let refineApiUrl := resolveField opts.refineEndpoint (config "refinement_service_endpoint")
    if queryApiUrl = none ∧ refineApiUrl = none then
      (none,
        [CliMessage.error "At least one API endpoint is required (Query Engine or Refinement Service).",
         CliMessage.write (outputExamples "Set API endpoints with"
           ["vana config set query_engine_endpoint https://query-engine.api.com",
            "vana config set refinement_service_endpoint https://refine.api.com",
            "or use --query-endpoint and --refine-endpoint options"])])
    else
      (some (pk, queryApiUrl, refineApiUrl), [])

/-- Embedding of `RefinerStatsCommand.displayVerboseInfo`. -/
def displayVerboseInfo (refinerIdNum : Nat) (privateKey : String)
    (queryApiUrl refineApiUrl : Option String) : List CliMessage :=
  [CliMessage.write (formatTitle "🔍 Comprehensive Refiner Statistics" ++ "\n"),
   CliMessage.write (formatConfigPair "Refiner ID" (natToString refinerIdNum) ++ "\n"),
   CliMessage.write (formatConfigPair "Query Engine API" (queryApiUrl.getD "Not configured") ++ "\n"),
   CliMessage.write (formatConfigPair "Refinement Service API" (refineApiUrl.getD "Not configured") ++ "\n"),
   CliMessage.write (formatConfigPair "Private Key" (maskSensitiveValue "wallet_private_key" privateKey) ++ "\n"),
   CliMessage.write "\n"]

/-- Embedding of `RefinerStatsCommand.fetchCombinedStats`: for each
truthy endpoint, invoke the corresponding client (recorded in the
`ClientCall` trace); a success populates the stats field, a thrown error
populates the error field and emits a warning.  The spinner is UI only
and is not modelled. -/
def fetchCombinedStats (env : FetchEnv) (refinerIdNum : Nat) (privateKey : String)
    (queryApiUrl refineApiUrl : Option String) :
    CombinedRefinerStats × List ClientCall × List CliMessage :=
  let results0 : CombinedRefinerStats :=
    { refiner_id := refinerIdNum, ingestion_stats := none, execution_stats := none,
      ingestion_error := none, execution_error := none }
  let step1 : CombinedRefinerStats × List ClientCall × List CliMessage :=
    match truthyStr queryApiUrl with
    | none => (results0, [], [])
    | some url =>
      match env.ingestFetch url refinerIdNum privateKey with
      | Except.ok stats =>
        ({ results0 with ingestion_stats := some stats },
         [ClientCall.ingestion url refinerIdNum privateKey], [])
      | Except.error e =>
        ({ results0 with ingestion_error := some e },
         [ClientCall.ingestion url refinerIdNum privateKey],
         [CliMessage.warning ("Query Engine: " ++ e)])
  let results1 := step1.1
  match truthyStr refineApiUrl with
  | none => (results1, step1.2.1, step1.2.2)
  | some url =>
    match env.execFetch url refinerIdNum privateKey with
    | Except.ok stats =>
      ({ results1 with execution_stats := some stats },
       step1.2.1 ++ [ClientCall.execution url refinerIdNum privateKey], step1.2.2)
    | Except.error e =>
      ({ results1 with execution_error := some e },
       step1.2.1 ++ [ClientCall.execution url refinerIdNum privateKey],
       step1.2.2 ++ [CliMessage.warning ("Refinement Service: " ++ e)])

/-- Embedding of `RefinerStatsCommand.displayNoDataMessage`.  (On the
no-data path both stats fields are `none` in this embedding, since a
client success always carries a response record; the dead `Connected`
branches of the source are kept for structural fidelity.) -/
def displayNoDataMessage (refinerIdNum : Nat) (combinedStats : CombinedRefinerStats) :
    List CliMessage :=
  [CliMessage.write (formatTitle ("📊 Refiner " ++ natToString refinerIdNum ++ " - No Data Found") ++ "\n\n"),
   CliMessage.write "🔍 Data Availability:\n",
   (match combinedStats.ingestion_error with
    | some e => CliMessage.write ("  Query Engine: ❌ " ++ e ++ "\n")
    | none =>
      if combinedStats.ingestion_stats.isSome then
        CliMessage.write "  Query Engine: ✅ Connected (no data ingested)\n"
      else
        CliMessage.write "  Query Engine: ⚪ Not configured\n"),
   (match combinedStats.execution_error with
    | some e => CliMessage.write ("  Refinement Service: ❌ " ++ e ++ "\n")
    | none =>
      if combinedStats.execution_stats.isSome then
        CliMessage.write "  Refinement Service: ✅ Connected (no jobs processed)\n"
      else
        CliMessage.write "  Refinement Service: ⚪ Not configured\n"),
   CliMessage.write "\n💡 This could mean:\n",
   CliMessage.write "  • The refiner ID doesn't exist\n",
   CliMessage.write "  • The refiner hasn't processed any data or jobs yet\n",
   CliMessage.write "  • You don't have permission to view this refiner's stats\n",
   CliMessage.write "  • One or both services are not configured\n"]

/-- Truthiness of a JavaScript number held in an `Option Rat` field:
absent, `0` and `NaN` are falsy (`NaN` cannot occur here). -/
def truthyRat : Option Rat → Bool
  | some v => v ≠ 0
  | none => false

/-- Truthiness of an optional integer field (`last_processed_block`). -/
def truthyNat : Option Nat → Bool
  | some v => v ≠ 0
  | none => false

/-- Embedding of `RefinerStatsCommand.displayDataIngestionStats`. -/
def displayDataIngestionStats (plat : Platform) (stats : RefinerIngestionStatsResponse) :
    List CliMessage :=
  [CliMessage.write (formatTitle "📁 Data Ingestion" ++ "\n")]
    ++ (if stats.total_file_contributions = 0 then
          [CliMessage.write "⚪ No data has been ingested yet\n"]
        else
          [CliMessage.write (formatConfigPair "File Contributions" (plat.numToLocale stats.total_file_contributions) ++ "\n"),
           CliMessage.write (formatConfigPair "Total Data Rows" (plat.numToLocale stats.total_data_rows) ++ "\n"),
           CliMessage.write (formatConfigPair "Unique Contributors" (plat.numToLocale stats.unique_contributors) ++ "\n")]
          ++ (match stats.first_ingestion_at with
              | some t => [CliMessage.write (formatConfigPair "First Ingestion" (plat.dateToLocale t) ++ "\n")]
              | none => [])
          ++ (match stats.last_ingestion_at with
              | some t => [CliMessage.write (formatConfigPair "Last Ingestion" (plat.dateToLocale t) ++ "\n")]
              | none => [])
          ++ (if truthyRat stats.ingestion_period_days then
                [CliMessage.write (formatConfigPair "Ingestion Period"
                  (plat.toFixed (stats.ingestion_period_days.getD 0) 1 ++ " days") ++ "\n")]
              else [])
          ++ [CliMessage.write (formatConfigPair "Avg Rate/Hour"
               (plat.toFixed stats.average_ingestion_rate_per_hour 2) ++ "\n")]
          ++ (if stats.rows_per_table.length > 0 then
                CliMessage.write ("\n" ++ formatTitle "📋 Rows per Table" ++ "\n")
                  :: (sortByCountDesc stats.rows_per_table).map
                       (fun p => CliMessage.write (formatConfigPair p.1 (plat.numToLocale p.2) ++ "\n"))
              else []))

/-- Embedding of `RefinerStatsCommand.displayJobExecutionStats`. -/
def displayJobExecutionStats (plat : Platform) (stats : RefinerExecutionStatsResponse) :
    List CliMessage :=
  [CliMessage.write (formatTitle "⚙️  Refiner Execution (Refinement Service)" ++ "\n")]
    ++ (if stats.total_jobs = 0 then
          [CliMessage.write "⚪ No jobs have been processed yet\n"]
        else
          [CliMessage.write (formatConfigPair "Total Jobs" (plat.numToLocale stats.total_jobs) ++ "\n"),
           CliMessage.write (formatConfigPair "Successful" (plat.numToLocale stats.successful_jobs) ++ "\n"),
           CliMessage.write (formatConfigPair "Failed" (plat.numToLocale stats.failed_jobs) ++ "\n"),
           CliMessage.write (formatConfigPair "Currently Processing" (plat.numToLocale stats.processing_jobs) ++ "\n"),
           CliMessage.write (formatConfigPair "In Queue" (plat.numToLocale stats.submitted_jobs) ++ "\n")]
          ++ (if stats.total_jobs > 0 then
                [CliMessage.write (formatConfigPair "Success Rate"
                  (plat.toFixed (stats.success_rate * 100) 1 ++ "%") ++ "\n")]
              else [])
          ++ (if stats.average_processing_time_seconds > 0 then
                [CliMessage.write (formatConfigPair "Avg Processing Time"
                  (plat.toFixed stats.average_processing_time_seconds 1 ++ "s") ++ "\n")]
              else [])
          ++ (if stats.jobs_per_hour > 0 then
                [CliMessage.write (formatConfigPair "Jobs per Hour"
                  (plat.toFixed stats.jobs_per_hour 2) ++ "\n")]
              else [])
          ++ (match stats.first_job_at with
              | some t => [CliMessage.write (formatConfigPair "First Job" (plat.dateToLocale t) ++ "\n")]
              | none => [])
          ++ (match stats.last_job_at with
              | some t => [CliMessage.write (formatConfigPair "Last Job" (plat.dateToLocale t) ++ "\n")]
              | none => [])
          ++ (if truthyRat stats.processing_period_days then
                [CliMessage.write (formatConfigPair "Processing Period"
                  (plat.toFixed (stats.processing_period_days.getD 0) 1 ++ " days") ++ "\n")]
              else [])
          ++ [CliMessage.write "\n"])

/-- Embedding of `RefinerStatsCommand.displayQueryExecutionStats`. -/
def displayQueryExecutionStats (plat : Platform) (stats : RefinerIngestionStatsResponse) :
    List CliMessage :=
  if stats.total_queries_executed = 0 then []
  else
    [CliMessage.write ("\n" ++ formatTitle "🔍 Query Execution" ++ "\n"),
     CliMessage.write (formatConfigPair "Total Queries" (plat.numToLocale stats.total_queries_executed) ++ "\n"),
     CliMessage.write (formatConfigPair "Successful" (plat.numToLocale stats.successful_queries) ++ "\n"),
     CliMessage.write (formatConfigPair "Failed" (plat.numToLocale stats.failed_queries) ++ "\n")]
    ++ (if stats.total_queries_executed > 0 then
          [CliMessage.write (formatConfigPair "Success Rate"
            (plat.toFixed ((stats.successful_queries : Rat) / (stats.total_queries_executed : Rat) * 100) 1 ++ "%") ++ "\n")]
        else [])

/-- The lines rendering one recent-error record in the error-analysis
section, with its 1-based position. -/
def recentErrorLines (plat : Platform) (index : Nat) (e : RecentError) : List CliMessage :=
  [CliMessage.write ("  " ++ natToString (index + 1) ++ ". " ++ e.error ++ "\n"),
   CliMessage.write ("     " ++ plat.dateToLocale e.timestamp ++ "\n")]
    ++ (match e.job_id with
        | some jid => [CliMessage.write ("     Job ID: " ++ jid ++ "\n")]
        | none => [])

/-- The rendered lines of one error-type tally: the entries stably
sorted by descending count (`.sort(([,a],[,b]) => b - a)`), one line
each. -/
def tallyLines (plat : Platform) (tallies : List (String × Nat)) : List CliMessage :=
  (sortByCountDesc tallies).map
    (fun p => CliMessage.write ("  " ++ formatConfigPair p.1 (plat.numToLocale p.2) ++ "\n"))

/-- The recent-errors block of the error-analysis section: at most the
first three records (`recent_errors.slice(0, 3)`), each rendered by
`recentErrorLines`. -/
def recentErrorBlock (plat : Platform) (es : RefinerExecutionStatsResponse) :
    List CliMessage :=
  if es.recent_errors.length > 0 then
    CliMessage.write "\nRecent Execution Errors:\n"
      :: ((es.recent_errors.take 3).enum.map
           (fun p => recentErrorLines plat p.1 p.2)).flatten
  else []

/-- Embedding of `RefinerStatsCommand.displayCombinedErrorAnalysis`:
both tally records are rendered through the stable descending sort, and
only the first three recent execution error records are shown. -/
def displayCombinedErrorAnalysis (plat : Platform) (combinedStats : CombinedRefinerStats) :
    List CliMessage :=
  let queryErrors : List (String × Nat) :=
    match combinedStats.ingestion_stats with
    | some s => s.query_errors_by_type
    | none => []
  let executionErrors : List (String × Nat) :=
    match combinedStats.execution_stats with
    | some s => s.error_types
    | none => []
  let hasQueryErrors := combinedStats.ingestion_stats.isSome ∧ queryErrors.length > 0
  let hasExecutionErrors := combinedStats.execution_stats.isSome ∧ executionErrors.length > 0
  if ¬ hasQueryErrors ∧ ¬ hasExecutionErrors then []
  else
    [CliMessage.write ("\n" ++ formatTitle "❌ Error Analysis" ++ "\n")]
      ++ (if hasQueryErrors then
            CliMessage.write "Query Errors:\n" :: tallyLines plat queryErrors
          else [])
      ++ (if hasExecutionErrors then
            CliMessage.write "Execution Errors:\n" :: tallyLines plat executionErrors
          else [])
      ++ (match combinedStats.execution_stats with
          | some es => recentErrorBlock plat es
          | none => [])

/-- Embedding of `RefinerStatsCommand.displayTechnicalDetails`. -/
def displayTechnicalDetails (plat : Platform) (combinedStats : CombinedRefinerStats) :
    List CliMessage :=
  [CliMessage.write ("\n" ++ formatTitle "🔧 Technical Details" ++ "\n")]
    ++ (match combinedStats.ingestion_stats with
        | some s =>
          if truthyNat s.last_processed_block then
            [CliMessage.write (formatConfigPair "Last Processed Block"
              (plat.numToLocale (s.last_processed_block.getD 0)) ++ "\n")]
          else []
        | none => [])
    ++ (if combinedStats.execution_stats.isSome then
          [CliMessage.write (formatConfigPair "Service Status" "Connected" ++ "\n")]
        else [])
    ++ (if combinedStats.ingestion_stats.isSome then
          [CliMessage.write (formatConfigPair "Query Engine Status" "Connected" ++ "\n")]
        else [])

/-- Embedding of `RefinerStatsCommand.displayFormattedStats`. -/
def displayFormattedStats (plat : Platform) (verbose : Bool)
    (combinedStats : CombinedRefinerStats) : List CliMessage :=
  [CliMessage.write (formatTitle ("📊 Refiner " ++ natToString combinedStats.refiner_id
    ++ " - Comprehensive Statistics") ++ "\n\n")]
    ++ (match combinedStats.execution_stats with
        | some es => displayJobExecutionStats plat es
        | none =>
          [CliMessage.write ("\n" ++ formatTitle "⚙️  Refiner Execution (Refinement Service)" ++ "\n"),
           CliMessage.write "⚪ No execution data available\n"]
          ++ (match combinedStats.execution_error with
              | some e => [CliMessage.write ("❌ Error: " ++ e ++ "\n")]
              | none => []))
    ++ (match combinedStats.ingestion_stats with
        | some is => displayDataIngestionStats plat is
        | none =>
          [CliMessage.write (formatTitle "📁 Data Ingestion" ++ "\n"),
           CliMessage.write "⚪ No ingestion data available\n"]
          ++ (match combinedStats.ingestion_error with
              | some e => [CliMessage.write ("❌ Error: " ++ e ++ "\n")]
              | none => []))
    ++ (match combinedStats.ingestion_stats with
        | some is => displayQueryExecutionStats plat is
        | none => [])
    ++ displayCombinedErrorAnalysis plat combinedStats
    ++ (if verbose then displayTechnicalDetails plat combinedStats else [])

/-- Embedding of `RefinerStatsCommand.displayResults`. -/
def displayResults (plat : Platform) (opts : CmdOptions)
    (combinedStats : CombinedRefinerStats) : List CliMessage :=
  (if opts.json then
     [CliMessage.write (plat.jsonStringify combinedStats ++ "\n")]
   else displayFormattedStats plat opts.verbose combinedStats)
    ++ (if opts.includeRaw ∧ ¬ opts.json then
          [CliMessage.write ("\n" ++ formatTitle "📄 Raw API Responses" ++ "\n"),
           CliMessage.write (plat.jsonStringify combinedStats ++ "\n")]
        else [])

/-- Embedding of `RefinerStatsCommand.execute`: exit code, the emitted
messages in order, and the trace of stats-client invocations.  The
top-level catch-all of the source is unreachable in this total
embedding. -/
def execute (plat : Platform) (config : String → Option String) (env : FetchEnv)
    (opts : CmdOptions) : Nat × List CliMessage × List ClientCall :=
  match validateRefinerId opts.refinerId with
  | none => (1, [CliMessage.error "Invalid refiner ID. Must be a non-negative number."], [])
  | some idInt =>
    let refinerIdNum := idInt.toNat
    match getConfiguration config opts with
    | (none, cfgMsgs) => (1, cfgMsgs, [])
    | (some (privateKey, queryApiUrl, refineApiUrl), cfgMsgs) =>
      let verboseMsgs :=
        if opts.verbose then displayVerboseInfo refinerIdNum privateKey queryApiUrl refineApiUrl
        else []
      let fetched := fetchCombinedStats env refinerIdNum privateKey queryApiUrl refineApiUrl
      let combinedStats := fetched.1
      let calls := fetched.2.1
      let fetchMsgs := fetched.2.2
      if combinedStats.ingestion_stats = none ∧ combinedStats.execution_stats = none then
        (0,
         cfgMsgs ++ verboseMsgs ++ fetchMsgs
           ++ [CliMessage.warning "No data found for this refiner in either service"]
           ++ displayNoDataMessage refinerIdNum combinedStats,
         calls)
      else
        (0,
         cfgMsgs ++ verboseMsgs ++ fetchMsgs
           ++ displayResults plat opts combinedStats
           ++ [CliMessage.success "Refiner stats retrieved completed successfully"]
           ++ (if opts.verbose then
                 [CliMessage.warning "⚠️  Alpha software: Verify all data independently before making decisions"]
               else []),
         calls)

/-! ## Signed request construction (the two stats clients)

Both clients normalise the private key, derive a wallet, and sign the
decimal rendering of the refiner id with `wallet.signMessage`.  The
EIP-191 signature scheme itself lives in the external `ethers` library
and is an external contract with the backend; it enters the embedding
as an uninterpreted function `sign : key → message → signature`, which
is in particular deterministic, exactly as `ethers` deterministic
(RFC 6979) signing is. -/

/-- Embedding of the key normalisation both clients perform:
prepend `0x` when the key does not already start with it. -/
def formatPrivateKey (privateKey : String) : String :=
  if privateKey.startsWith "0x" then privateKey else "0x" ++ privateKey

/-- The message both clients sign: `refinerId.toString()`. -/
def signedStatsMessage (refinerId : Nat) : String :=
  natToString refinerId

/-- The signature both clients attach as `X-Refiner-Signature`,
for an ambient signing function `sign`. -/
def statsSignature (sign : String → String → String) (privateKey : String)
    (refinerId : Nat) : String :=
  sign (formatPrivateKey privateKey) (signedStatsMessage refinerId)

/-- The URL both clients request: `{baseUrl}/stats/refiner/{refinerId}`. -/
def statsRequestUrl (baseUrl : String) (refinerId : Nat) : String :=
  baseUrl ++ "/stats/refiner/" ++ natToString refinerId

/-! ## The non-2xx error message computation (both clients, identical)

The fetch `Response` is embedded as status, status text and body text.
`JSON.parse` is embedded as a fuel-based recursive-descent JSON parser;
`none` is a thrown `SyntaxError`. -/

/-- A fetch response as the error path of the clients observes it. -/
structure HttpResponse where
  status : Nat
  statusText : String
  body : String
deriving DecidableEq, Repr

/-- JavaScript `response.ok`: status in the 2xx range. -/
def responseOk (r : HttpResponse) : Bool :=
  200 ≤ r.status ∧ r.status ≤ 299

/-- A JSON value as `JSON.parse` produces it.  Numbers keep their source
token (their exact numeric value never matters to the error path). -/
inductive JsValue where
  | null
  | bool (b : Bool)
  | num (raw : String)
  | str (s : String)
  | arr (elems : List JsValue)
  | obj (fields : List (String × JsValue))

/-- JSON whitespace. -/
def isJsonWs (c : Char) : Bool :=
  c = ' ' ∨ c = '\t' ∨ c = '\n' ∨ c = '\r'

/-- Scan a JSON string body after the opening quote; `acc` holds the
characters read so far, in reverse.  A `\\uXXXX` escape denoting a lone
surrogate is folded to the replacement of `Char.ofNat`, which no claim
reaches. -/
def parseJsonStringAux : Nat → List Char → List Char → Option (String × List Char)
  | 0, _, _ => none
  | fuel + 1, acc, cs =>
    match cs with
    | [] => none
    | '"' :: rest => some (String.mk acc.reverse, rest)
    | '\\' :: esc =>
      match esc with
      | '"' :: rest => parseJsonStringAux fuel ('"' :: acc) rest
      | '\\' :: rest => parseJsonStringAux fuel ('\\' :: acc) rest
      | '/' :: rest => parseJsonStringAux fuel ('/' :: acc) rest
      | 'b' :: rest => parseJsonStringAux fuel (Char.ofNat 8 :: acc) rest
      | 'f' :: rest => parseJsonStringAux fuel (Char.ofNat 12 :: acc) rest
      | 'n' :: rest => parseJsonStringAux fuel ('\n' :: acc) rest
      | 'r' :: rest => parseJsonStringAux fuel ('\r' :: acc) rest
      | 't' :: rest => parseJsonStringAux fuel ('\t' :: acc) rest
      | 'u' :: h1 :: h2 :: h3 :: h4 :: rest =>
        match digitVal 16 h1, digitVal 16 h2, digitVal 16 h3, digitVal 16 h4 with
        | some a, some b, some c, some d =>
          parseJsonStringAux fuel (Char.ofNat (a * 4096 + b * 256 + c * 16 + d) :: acc) rest
        | _, _, _, _ => none
      | _ => none
    | c :: rest => if c.toNat ≥ 32 then parseJsonStringAux fuel (c :: acc) rest else none

/-- Scan a JSON number token starting at `cs`; returns the raw token and
the rest.  Grammar: `-? (0 | [1-9][0-9]*) (. [0-9]+)? ([eE][+-]?[0-9]+)?`. -/
def parseJsonNumber (cs : List Char) : Option (String × List Char) :=
  let isDig : Char → Bool := fun c => '0' ≤ c ∧ c ≤ '9'
  let signAndRest : List Char × List Char :=
    match cs with
    | '-' :: rest => (['-'], rest)
    | rest => ([], rest)
  let intAndRest : Option (List Char × List Char) :=
    match signAndRest.2 with
    | '0' :: rest => some (['0'], rest)
    | c :: rest =>
      if '1' ≤ c ∧ c ≤ '9' then
        some (c :: rest.takeWhile isDig, rest.dropWhile isDig)
      else none
    | [] => none
  match intAndRest with
  | none => none
  | some (intPart, afterInt) =>
    let fracAndRest : Option (List Char × List Char) :=
      match afterInt with
      | '.' :: rest =>
        let ds := rest.takeWhile isDig
        if ds.isEmpty then none else some ('.' :: ds, rest.dropWhile isDig)
      | rest => some ([], rest)
    match fracAndRest with
    | none => none
    | some (fracPart, afterFrac) =>
      let expAndRest : Option (List Char × List Char) :=
        match afterFrac with
        | e :: rest =>
          if e = 'e' ∨ e = 'E' then
            let signExp : List Char × List Char :=
              match rest with
              | '+' :: r2 => (['+'], r2)
              | '-' :: r2 => (['-'], r2)
              | r2 => ([], r2)
            let ds := signExp.2.takeWhile isDig
            if ds.isEmpty then none
            else some (e :: signExp.1 ++ ds, signExp.2.dropWhile isDig)
          else some ([], e :: rest)
        | [] => some ([], [])
      match expAndRest with
      | none => none
      | some (expPart, afterExp) =>
        some (String.mk (signAndRest.1 ++ intPart ++ fracPart ++ expPart), afterExp)

mutual

/-- Parse one JSON value at the head of `cs` (leading whitespace already
consumed). -/
def parseJsonValue : Nat → List Char → Option (JsValue × List Char)
  | 0, _ => none
  | fuel + 1, cs =>
    match cs with
    | 'n' :: 'u' :: 'l' :: 'l' :: rest => some (JsValue.null, rest)
    | 't' :: 'r' :: 'u' :: 'e' :: rest => some (JsValue.bool true, rest)
    | 'f' :: 'a' :: 'l' :: 's' :: 'e' :: rest => some (JsValue.bool false, rest)
    | '"' :: rest =>
      match parseJsonStringAux (fuel + 1) [] rest with
      | some (s, rest2) => some (JsValue.str s, rest2)
      | none => none
    | '[' :: rest =>
      match (rest.dropWhile isJsonWs) with
      | ']' :: rest2 => some (JsValue.arr [], rest2)
      | rest2 =>
        match parseJsonElements fuel rest2 with
        | some (elems, rest3) => some (JsValue.arr elems, rest3)
        | none => none
    | '{' :: rest =>
      match (rest.dropWhile isJsonWs) with
      | '}' :: rest2 => some (JsValue.obj [], rest2)
      | rest2 =>
        match parseJsonMembers fuel rest2 with
        | some (fields, rest3) => some (JsValue.obj fields, rest3)
        | none => none
    | _ =>
      match parseJsonNumber cs with
      | some (raw, rest) => some (JsValue.num raw, rest)
      | none => none

/-- Parse the non-empty element list of a JSON array, up to and
including the closing bracket. -/
def parseJsonElements : Nat → List Char → Option (List JsValue × List Char)
  | 0, _ => none
  | fuel + 1, cs =>
    match parseJsonValue fuel cs with
    | none => none
    | some (v, rest) =>
      match rest.dropWhile isJsonWs with
      | ']' :: rest2 => some ([v], rest2)
      | ',' :: rest2 =>
        match parseJsonElements fuel (rest2.dropWhile isJsonWs) with
        | some (vs, rest3) => some (v :: vs, rest3)
        | none => none
      | _ => none

/-- Parse the non-empty member list of a JSON object, up to and
including the closing brace. -/
def parseJsonMembers : Nat → List Char → Option (List (String × JsValue) × List Char)
  | 0, _ => none
  | fuel + 1, cs =>
    match cs with
    | '"' :: rest =>
      match parseJsonStringAux (fuel + 1) [] rest with
      | none => none
      | some (k, rest2) =>
        match rest2.dropWhile isJsonWs with
        | ':' :: rest3 =>
          match parseJsonValue fuel (rest3.dropWhile isJsonWs) with
          | none => none
          | some (v, rest4) =>
            match rest4.dropWhile isJsonWs with
            | '}' :: rest5 => some ([(k, v)], rest5)
            | ',' :: rest5 =>
              match parseJsonMembers fuel (rest5.dropWhile isJsonWs) with
              | some (fields, rest6) => some ((k, v) :: fields, rest6)
              | none => none
            | _ => none
        | _ => none
    | _ => none

end

/-- Embedding of `JSON.parse`: `none` is a thrown `SyntaxError`. -/
def jsonParse (s : String) : Option JsValue :=
  match parseJsonValue (s.data.length + 1) (s.data.dropWhile isJsonWs) with
  | some (v, rest) => if (rest.dropWhile isJsonWs).isEmpty then some v else none
  | none => none

/-- Property access `v[k]` on a parsed JSON value other than `null`:
`none` is `undefined`; duplicate object keys follow JavaScript
`JSON.parse`, where the last occurrence wins. -/
def getField : JsValue → String → Option JsValue
  | JsValue.obj fields, k => (fields.reverse.find? (fun p => p.1 == k)).map (fun p => p.2)
  | _, _ => none

/-- Whether a JSON number token denotes zero: every mantissa digit is 0.
(Floating-point underflow of huge negative exponents is not modelled.) -/
def numTokenIsZero (raw : String) : Bool :=
  ((raw.data.takeWhile (fun c => c ≠ 'e' ∧ c ≠ 'E')).filter
    (fun c => '0' ≤ c ∧ c ≤ '9')).all (fun c => c = '0')

/-- JavaScript truthiness of a parsed JSON value. -/
def jsTruthy : JsValue → Bool
  | JsValue.null => false
  | JsValue.bool b => b
  | JsValue.str s => s ≠ ""
  | JsValue.num raw => ¬ numTokenIsZero raw
  | JsValue.arr _ => true
  | JsValue.obj _ => true

/-- JavaScript `String(number)` for a JSON number token: exact for the
canonical integer tokens backend error payloads carry (and for `-0`);
float re-canonicalisation of fractional or exponent tokens is not
modelled.  No claim reaches a numeric error field. -/
def jsNumToString (raw : String) : String :=
  if numTokenIsZero raw then "0" else raw

/-- JavaScript `String(v)` for a parsed JSON value, as the `Error`
constructor applies it to a non-string `detail`/`message` field.  The
fuel only serves termination; any fuel at least the nesting depth gives
the JavaScript result. -/
def jsToStringAux : Nat → JsValue → String
  | 0, _ => ""
  | fuel + 1, v =>
    match v with
    | JsValue.null => "null"
    | JsValue.bool b => if b then "true" else "false"
    | JsValue.str s => s
    | JsValue.num raw => jsNumToString raw
    | JsValue.obj _ => "[object Object]"
    | JsValue.arr xs =>
      String.intercalate ","
        (xs.map (fun x => match x with
          | JsValue.null => ""
          | y => jsToStringAux fuel y))

/-- The truthy value of field `k` of `v`, if any: the value of
`v[k] || ...` chaining. -/
def truthyField (v : JsValue) (k : String) : Option JsValue :=
  match getField v k with
  | some x => if jsTruthy x then some x else none
  | none => none

/-- Embedding of the non-2xx error path shared by
`RefinementServiceClient.getRefinerExecutionStats` and
`QueryEngineClient.getRefinerIngestionStats`:

* start from the fallback `"HTTP {status}: {statusText}"`;
* `JSON.parse` the body; on a `SyntaxError`, use the body text when it
  is non-empty (`errorText || errorMessage`);
* a body that parses to JSON `null` makes the property access
  `errorJson.detail` throw a `TypeError`, which the same `catch` turns
  into the body text as well;
* otherwise take `detail` if truthy, else `message` if truthy, else the
  fallback, stringified by the `Error` constructor. -/
def clientErrorMessage (r : HttpResponse) : String :=
  let fallback := "HTTP " ++ natToString r.status ++ ": " ++ r.statusText
  match jsonParse r.body with
  | none => if r.body = "" then fallback else r.body
  | some JsValue.null => if r.body = "" then fallback else r.body
  | some v =>
    match truthyField v "detail" with
    | some d => jsToStringAux (strLen r.body + 1) d
    | none =>
      match truthyField v "message" with
      | some m => jsToStringAux (strLen r.body + 1) m
      | none => fallback

/-- The error message exactly as claim C7 words it: the truthy `detail`
field of the JSON-parsed body, else the truthy `message` field, else —
only when the body is not valid JSON — the raw body text if non-empty,
else the HTTP fallback. -/
def claimC7ErrorMessage (r : HttpResponse) : String :=
  let fallback := "HTTP " ++ natToString r.status ++ ": " ++ r.statusText
  match jsonParse r.body with
  | none => if r.body = "" then fallback else r.body
  | some v =>
    match truthyField v "detail" with
    | some d => jsToStringAux (strLen r.body + 1) d
    | none =>
      match truthyField v "message" with
      | some m => jsToStringAux (strLen r.body + 1) m
      | none => fallback

/-! ## Helper lemmas: decimal digit characters -/

theorem digitVal_digitChar {d : Nat} (h : d < 10) :
    digitVal 10 (Char.ofNat (48 + d)) = some d := by
  interval_cases d <;> decide

theorem digitChar_not_ws {d : Nat} (h : d < 10) :
    isJsWhitespace (Char.ofNat (48 + d)) = false := by
  interval_cases d <;> decide

theorem digitChar_ne_minus {d : Nat} (h : d < 10) :
    Char.ofNat (48 + d) ≠ '-' := by
  interval_cases d <;> decide

theorem digitChar_ne_plus {d : Nat} (h : d < 10) :
    Char.ofNat (48 + d) ≠ '+' := by
  interval_cases d <;> decide

theorem digitChar_ne_x {d : Nat} (h : d < 10) :
    Char.ofNat (48 + d) ≠ 'x' ∧ Char.ofNat (48 + d) ≠ 'X' := by
  interval_cases d <;> decide

theorem digitChar_ne_zero {d : Nat} (h0 : 0 < d) (h : d < 10) :
    Char.ofNat (48 + d) ≠ '0' := by
  interval_cases d <;> decide

theorem isRadixDigit_digitChar {d : Nat} (h : d < 10) :
    isRadixDigit 10 (Char.ofNat (48 + d)) = true := by
  simp [isRadixDigit, digitVal_digitChar h]

/-! ## Helper lemmas: `digitCharsAux` and `natToString` -/

theorem mem_digitCharsAux {fuel n : Nat} {c : Char} (h : c ∈ digitCharsAux fuel n) :
    ∃ d, d < 10 ∧ c = Char.ofNat (48 + d) := by
  induction fuel generalizing n with
  | zero => simp [digitCharsAux] at h
  | succ fuel ih =>
    by_cases hn : n = 0
    · simp [digitCharsAux, hn] at h
    · simp only [digitCharsAux, if_neg hn, List.mem_append, List.mem_singleton] at h
      rcases h with h | h
      · exact ih h
      · exact ⟨n % 10, Nat.mod_lt _ (by norm_num), h⟩

theorem digitsToNat_append_digit (l : List Char) (c : Char) :
    digitsToNat 10 (l ++ [c]) = digitsToNat 10 l * 10 + (digitVal 10 c).getD 0 := by
  simp [digitsToNat, List.foldl_append]

theorem digitsToNat_digitCharsAux {fuel n : Nat} (h : n ≤ fuel) :
    digitsToNat 10 (digitCharsAux fuel n) = n := by
  induction fuel generalizing n with
  | zero =>
    interval_cases n
    simp [digitCharsAux, digitsToNat]
  | succ fuel ih =>
    by_cases hn : n = 0
    · simp [digitCharsAux, hn, digitsToNat]
    · have hdiv : n / 10 ≤ fuel := by
        have : n / 10 < n := Nat.div_lt_self (Nat.pos_of_ne_zero hn) (by norm_num)
        omega
      rw [digitCharsAux, if_neg hn, digitsToNat_append_digit, ih hdiv,
        digitVal_digitChar (Nat.mod_lt _ (by norm_num))]
      simp
      omega

theorem digitCharsAux_ne_nil {fuel n : Nat} (h : n ≤ fuel) (h0 : 0 < n) :
    digitCharsAux fuel n ≠ [] := by
  intro hcon
  have := digitsToNat_digitCharsAux h
  rw [hcon] at this
  simp [digitsToNat] at this
  omega

theorem digitCharsAux_head_ne_zero {fuel n : Nat} (h : n ≤ fuel) (h0 : 0 < n) {c : Char}
    (hc : (digitCharsAux fuel n).head? = some c) : c ≠ '0' := by
  induction fuel generalizing n with
  | zero => omega
  | succ fuel ih =>
    have hn : n ≠ 0 := Nat.pos_iff_ne_zero.mp h0
    rw [digitCharsAux, if_neg hn] at hc
    by_cases hdiv0 : n / 10 = 0
    · have hmod : n % 10 = n := by omega
      have : digitCharsAux fuel (n / 10) = [] := by
        cases fuel with
        | zero => rfl
        | succ f => simp [digitCharsAux, hdiv0]
      rw [this] at hc
      simp at hc
      subst hc
      rw [hmod]
      exact digitChar_ne_zero h0 (by omega)
    · have hdivle : n / 10 ≤ fuel := by
        have : n / 10 < n := Nat.div_lt_self h0 (by norm_num)
        omega
      have hne := digitCharsAux_ne_nil hdivle (Nat.pos_of_ne_zero hdiv0)
      rw [List.head?_append] at hc
      cases hh : (digitCharsAux fuel (n / 10)).head? with
      | none =>
        rcases List.exists_cons_of_ne_nil hne with ⟨a, t, hconsEq⟩
        rw [hconsEq] at hh
        simp at hh
      | some a =>
        rw [hh] at hc
        simp [Option.or] at hc
        subst hc
        exact ih hdivle (Nat.pos_of_ne_zero hdiv0) hh

theorem natToString_data_all_digits {n : Nat} {c : Char}
    (h : c ∈ (natToString n).data) : ∃ d, d < 10 ∧ c = Char.ofNat (48 + d) := by
  by_cases hn : n = 0
  · subst hn
    simp only [natToString, if_pos rfl] at h
    have : c = '0' := by simpa using h
    exact ⟨0, by norm_num, by simpa using this⟩
  · rw [natToString, if_neg hn] at h
    exact mem_digitCharsAux h

theorem digitsToNat_natToString (n : Nat) :
    digitsToNat 10 (natToString n).data = n := by
  by_cases hn : n = 0
  · subst hn; decide
  · rw [natToString, if_neg hn]
    exact digitsToNat_digitCharsAux (Nat.le_succ n)

theorem natToString_data_ne_nil (n : Nat) : (natToString n).data ≠ [] := by
  by_cases hn : n = 0
  · subst hn; decide
  · rw [natToString, if_neg hn]
    exact digitCharsAux_ne_nil (Nat.le_succ n) (Nat.pos_of_ne_zero hn)

theorem natToString_head_ne_zero {n : Nat} (h0 : 0 < n) {c : Char}
    (hc : (natToString n).data.head? = some c) : c ≠ '0' := by
  rw [natToString, if_neg (Nat.pos_iff_ne_zero.mp h0)] at hc
  exact digitCharsAux_head_ne_zero (Nat.le_succ n) h0 hc

/-! ## Helper lemmas: `jsParseInt` on canonical digit strings -/

theorem jsParseIntSign_of_digit {d : Nat} (hd : d < 10) (rest : List Char) :
    jsParseIntSign (Char.ofNat (48 + d) :: rest) = (1, Char.ofNat (48 + d) :: rest) := by
  unfold jsParseIntSign
  split
  · next heq => exact absurd (List.head_eq_of_cons_eq heq) (digitChar_ne_minus hd)
  · next heq => exact absurd (List.head_eq_of_cons_eq heq) (digitChar_ne_plus hd)
  · rfl

theorem jsParseIntRadix_of_digits {l : List Char}
    (h : ∀ c ∈ l, ∃ d, d < 10 ∧ c = Char.ofNat (48 + d)) :
    jsParseIntRadix l = (10, l) := by
  unfold jsParseIntRadix
  split
  · rcases h 'x' (by simp) with ⟨e, he, hxe⟩
    exact absurd hxe.symm (digitChar_ne_x he).1
  · rcases h 'X' (by simp) with ⟨e, he, hxe⟩
    exact absurd hxe.symm (digitChar_ne_x he).2
  · rfl

theorem jsParseInt_digits {l : List Char}
    (h : ∀ c ∈ l, ∃ d, d < 10 ∧ c = Char.ofNat (48 + d)) (hne : l ≠ []) :
    jsParseInt (String.mk l) = some ((digitsToNat 10 l : Nat) : Int) := by
  rcases List.exists_cons_of_ne_nil hne with ⟨c, rest, rfl⟩
  rcases h c (List.mem_cons_self _ _) with ⟨d, hd, rfl⟩
  have hdrop : (Char.ofNat (48 + d) :: rest).dropWhile isJsWhitespace
      = Char.ofNat (48 + d) :: rest := by
    rw [List.dropWhile_cons]
    simp [digitChar_not_ws hd]
  have htake : (Char.ofNat (48 + d) :: rest).takeWhile (isRadixDigit 10)
      = Char.ofNat (48 + d) :: rest := by
    rw [List.takeWhile_eq_self_iff]
    intro x hx
    rcases h x hx with ⟨e, he, rfl⟩
    exact isRadixDigit_digitChar he
  have hdata : (String.mk (Char.ofNat (48 + d) :: rest)).data
      = Char.ofNat (48 + d) :: rest := rfl
  rw [jsParseInt, hdata, hdrop, jsParseIntSign_of_digit hd, jsParseIntRadix_of_digits h]
  rw [htake]
  simp [digitsToNat]

/-! ## Helper lemmas: the stable descending sort -/

theorem insertDesc_perm (x : String × Nat) :
    ∀ l : List (String × Nat), (insertDesc x l).Perm (x :: l)
  | [] => List.Perm.refl _
  | y :: ys => by
    unfold insertDesc
    split
    · exact List.Perm.refl _
    · exact ((insertDesc_perm x ys).cons y).trans (List.Perm.swap x y ys)

theorem sortByCountDesc_perm : ∀ l : List (String × Nat), (sortByCountDesc l).Perm l
  | [] => List.Perm.refl _
  | x :: xs =>
    (insertDesc_perm x (sortByCountDesc xs)).trans ((sortByCountDesc_perm xs).cons x)

theorem insertDesc_pairwise {x : String × Nat} :
    ∀ {l : List (String × Nat)}, l.Pairwise (fun a b => b.2 ≤ a.2) →
      (insertDesc x l).Pairwise (fun a b => b.2 ≤ a.2)
  | [], _ => by simp [insertDesc]
  | y :: ys, hl => by
    rw [List.pairwise_cons] at hl
    unfold insertDesc
    split
    · next hle =>
      rw [List.pairwise_cons]
      refine ⟨?_, List.pairwise_cons.mpr hl⟩
      intro z hz
      rcases List.mem_cons.mp hz with rfl | hz2
      · exact hle
      · exact le_trans (hl.1 z hz2) hle
    · next hgt =>
      rw [List.pairwise_cons]
      refine ⟨?_, insertDesc_pairwise hl.2⟩
      intro z hz
      have hz2 := (insertDesc_perm x ys).mem_iff.mp hz
      rcases List.mem_cons.mp hz2 with rfl | hz3
      · omega
      · exact hl.1 z hz3

theorem sortByCountDesc_pairwise :
    ∀ l : List (String × Nat), (sortByCountDesc l).Pairwise (fun a b => b.2 ≤ a.2)
  | [] => List.Pairwise.nil
  | x :: xs => insertDesc_pairwise (sortByCountDesc_pairwise xs)

theorem filter_insertDesc (c : Nat) (x : String × Nat) :
    ∀ l : List (String × Nat),
      (insertDesc x l).filter (fun p => p.2 == c) =
        if x.2 = c then x :: l.filter (fun p => p.2 == c)
        else l.filter (fun p => p.2 == c)
  | [] => by
    by_cases hx : x.2 = c <;> simp [insertDesc, List.filter_cons, hx]
  | y :: ys => by
    unfold insertDesc
    split
    · next hle =>
      by_cases hx : x.2 = c <;> simp [List.filter_cons, hx]
    · next hgt =>
      rw [List.filter_cons, filter_insertDesc c x ys]
      by_cases hx : x.2 = c
      · have hy : (y.2 == c) = false := by
          simp only [beq_eq_false_iff_ne, ne_eq]
          omega
        simp [hx, hy, List.filter_cons]
      · simp [hx, List.filter_cons]

theorem sortByCountDesc_filter (c : Nat) :
    ∀ l : List (String × Nat),
      (sortByCountDesc l).filter (fun p => p.2 == c) = l.filter (fun p => p.2 == c)
  | [] => rfl
  | x :: xs => by
    rw [sortByCountDesc, filter_insertDesc c x (sortByCountDesc xs),
      sortByCountDesc_filter c xs, List.filter_cons]
    by_cases hx : x.2 = c <;> simp [hx]

/-! ## Helper lemmas: strings and masking -/

theorem strData_mk (l : List Char) : (String.mk l).data = l := rfl

theorem strData_append (a b : String) : (a ++ b).data = a.data ++ b.data := rfl

theorem strTake_data (s : String) (n : Nat) : (strTake s n).data = s.data.take n := rfl

theorem strDrop_data (s : String) (n : Nat) : (strDrop s n).data = s.data.drop n := rfl

theorem maskSensitiveValue_long {v : String} (h : strLen v > 10) :
    maskSensitiveValue "wallet_private_key" v
      = strTake v 6 ++ "..." ++ strDrop v (strLen v - 4) := by
  have hne : v ≠ "" := by
    intro hcon
    subst hcon
    simp [strLen] at h
  rw [maskSensitiveValue, if_pos ⟨rfl, hne⟩, if_pos h]

theorem maskSensitiveValue_short {v : String} (hne : v ≠ "") (h : ¬ strLen v > 10) :
    maskSensitiveValue "wallet_private_key" v
      = strTake v 4 ++ "..." ++ strDrop v (strLen v - 2) := by
  rw [maskSensitiveValue, if_pos ⟨rfl, hne⟩, if_neg h]

theorem maskSensitiveValue_long_data {v : String} (h : strLen v > 10) :
    (maskSensitiveValue "wallet_private_key" v).data
      = v.data.take 6 ++ ('.' :: '.' :: '.' :: []) ++ v.data.drop (v.data.length - 4) := by
  rw [maskSensitiveValue_long h]
  rfl

theorem maskSensitiveValue_long_length {v : String} (h : strLen v > 10) :
    strLen (maskSensitiveValue "wallet_private_key" v) = 13 := by
  rw [strLen, maskSensitiveValue_long_data h]
  simp only [List.length_append, List.length_take, List.length_drop, List.length_cons,
    List.length_nil]
  have : v.data.length > 10 := h
  omega

/-! ## Helper lemma: closed form of `fetchCombinedStats` -/

theorem fetchCombinedStats_eq (env : FetchEnv) (n : Nat) (pk : String)
    (q r : Option String) :
    fetchCombinedStats env n pk q r =
      ({ refiner_id := n,
         ingestion_stats :=
           match truthyStr q with
           | none => none
           | some u =>
             match env.ingestFetch u n pk with
             | Except.ok s => some s
             | Except.error _ => none,
         execution_stats :=
           match truthyStr r with
           | none => none
           | some u =>
             match env.execFetch u n pk with
             | Except.ok s => some s
             | Except.error _ => none,
         ingestion_error :=
           match truthyStr q with
           | none => none
           | some u =>
             match env.ingestFetch u n pk with
             | Except.ok _ => none
             | Except.error e => some e,
         execution_error :=
           match truthyStr r with
           | none => none
           | some u =>
             match env.execFetch u n pk with
             | Except.ok _ => none
             | Except.error e => some e },
       (match truthyStr q with
        | none => []
        | some u => [ClientCall.ingestion u n pk])
         ++ (match truthyStr r with
             | none => []
             | some u => [ClientCall.execution u n pk]),
       (match truthyStr q with
        | none => []
        | some u =>
          match env.ingestFetch u n pk with
          | Except.ok _ => []
          | Except.error e => [CliMessage.warning ("Query Engine: " ++ e)])
         ++ (match truthyStr r with
             | none => []
             | some u =>
               match env.execFetch u n pk with
               | Except.ok _ => []
               | Except.error e => [CliMessage.warning ("Refinement Service: " ++ e)])) := by
  cases hq : truthyStr q with
  | none =>
    cases hr : truthyStr r with
    | none => simp [fetchCombinedStats, hq, hr]
    | some ru =>
      cases hg : env.execFetch ru n pk <;> simp [fetchCombinedStats, hq, hr, hg]
  | some qu =>
    cases hf : env.ingestFetch qu n pk with
    | ok s =>
      cases hr : truthyStr r with
      | none => simp [fetchCombinedStats, hq, hr, hf]
      | some ru =>
        cases hg : env.execFetch ru n pk <;> simp [fetchCombinedStats, hq, hr, hf, hg]
    | error e =>
      cases hr : truthyStr r with
      | none => simp [fetchCombinedStats, hq, hr, hf]
      | some ru =>
        cases hg : env.execFetch ru n pk <;> simp [fetchCombinedStats, hq, hr, hf, hg]

/-! ## Sample data for witnesses -/

/-- A platform instance with trivial locale and JSON rendering, used
only to instantiate universally quantified theorems at a concrete
point. -/
def simplePlatform : Platform :=
  { numToLocale := natToString,
    dateToLocale := fun s => s,
    toFixed := fun _ _ => "",
    jsonStringify := fun _ => "" }

/-- A fetch environment in which both services always fail. -/
def failingEnv : FetchEnv :=
  { ingestFetch := fun _ _ _ => Except.error "Service unavailable",
    execFetch := fun _ _ _ => Except.error "Service unavailable" }

/-- A concrete execution-stats response (the shape of the repository's
`EXAMPLE_REFINER_EXECUTION_STATS`). -/
def sampleExecStats : RefinerExecutionStatsResponse :=
  { refiner_id := 45, total_jobs := 150, successful_jobs := 142, failed_jobs := 8,
    processing_jobs := 0, submitted_jobs := 2,
    first_job_at := some "2024-01-10T08:00:00Z", last_job_at := some "2024-01-25T16:30:00Z",
    average_processing_time_seconds := 45, success_rate := 9 / 10, jobs_per_hour := 4,
    processing_period_days := some 15,
    error_types := [("CONTAINER_EXECUTION_ERROR", 5), ("FILE_DOWNLOAD_FAILED", 3)],
    recent_errors :=
      [{ error := "Container execution failed", timestamp := "2024-01-25T15:00:00Z",
         job_id := some "job_123" },
       { error := "File download timeout", timestamp := "2024-01-25T14:30:00Z",
         job_id := some "job_124" },
       { error := "Timeout", timestamp := "2024-01-25T14:00:00Z", job_id := none },
       { error := "Disk full", timestamp := "2024-01-25T13:00:00Z", job_id := none }] }

/-- A fetch environment in which ingestion fails and execution
succeeds with `sampleExecStats`. -/
def mixedEnv : FetchEnv :=
  { ingestFetch := fun _ _ _ => Except.error "Connection refused",
    execFetch := fun _ _ _ => Except.ok sampleExecStats }

/-! ## Claim C5 -/

/-- Claim C5: in every combined stats result produced by the aggregator,
at most one of `ingestion_stats`/`ingestion_error` is populated, at most
one of `execution_stats`/`execution_error` is populated, and both fields
of a source are absent exactly when that source's endpoint was not
configured (not truthy). -/
theorem claim_c5_combined_result_invariant (env : FetchEnv) (n : Nat) (pk : String)
    (q r : Option String) :
    ¬ (((fetchCombinedStats env n pk q r).1.ingestion_stats.isSome : Prop)
        ∧ ((fetchCombinedStats env n pk q r).1.ingestion_error.isSome : Prop))
    ∧ ¬ (((fetchCombinedStats env n pk q r).1.execution_stats.isSome : Prop)
        ∧ ((fetchCombinedStats env n pk q r).1.execution_error.isSome : Prop))
    ∧ (((fetchCombinedStats env n pk q r).1.ingestion_stats = none
        ∧ (fetchCombinedStats env n pk q r).1.ingestion_error = none)
       ↔ truthyStr q = none)
    ∧ (((fetchCombinedStats env n pk q r).1.execution_stats = none
        ∧ (fetchCombinedStats env n pk q r).1.execution_error = none)
       ↔ truthyStr r = none) := by
  rw [fetchCombinedStats_eq]
  cases hq : truthyStr q with
  | none =>
    cases hr : truthyStr r with
    | none => simp
    | some ru => cases hg : env.execFetch ru n pk <;> simp [hg]
  | some qu =>
    cases hf : env.ingestFetch qu n pk with
    | ok s =>
      cases hr : truthyStr r with
      | none => simp [hf]
      | some ru => cases hg : env.execFetch ru n pk <;> simp [hf, hg]
    | error e =>
      cases hr : truthyStr r with
      | none => simp [hf]
      | some ru => cases hg : env.execFetch ru n pk <;> simp [hf, hg]

/-- Witness for claim C5 at a concrete point: one endpoint configured,
ingestion failing. -/
theorem claim_c5_combined_result_invariant_witness :
    ¬ (((fetchCombinedStats mixedEnv 45 "63abc" (some "https://q.example") none).1.ingestion_stats.isSome : Prop)
        ∧ ((fetchCombinedStats mixedEnv 45 "63abc" (some "https://q.example") none).1.ingestion_error.isSome : Prop))
    ∧ ¬ (((fetchCombinedStats mixedEnv 45 "63abc" (some "https://q.example") none).1.execution_stats.isSome : Prop)
        ∧ ((fetchCombinedStats mixedEnv 45 "63abc" (some "https://q.example") none).1.execution_error.isSome : Prop))
    ∧ (((fetchCombinedStats mixedEnv 45 "63abc" (some "https://q.example") none).1.ingestion_stats = none
        ∧ (fetchCombinedStats mixedEnv 45 "63abc" (some "https://q.example") none).1.ingestion_error = none)
       ↔ truthyStr (some "https://q.example") = none)
    ∧ (((fetchCombinedStats mixedEnv 45 "63abc" (some "https://q.example") none).1.execution_stats = none
        ∧ (fetchCombinedStats mixedEnv 45 "63abc" (some "https://q.example") none).1.execution_error = none)
       ↔ truthyStr (none : Option String) = none) :=
  claim_c5_combined_result_invariant mixedEnv 45 "63abc" (some "https://q.example") none

/-! ## Claim C6 -/

/-- Claim C6: the ingestion client is invoked exactly when the
query-engine endpoint is configured, the execution client exactly when
the refinement-service endpoint is configured; and when both are
configured, a failing ingestion fetch does not prevent the execution
fetch — both calls appear in the trace, the ingestion failure is
recorded as its error string, and the execution outcome is recorded
independently. -/
theorem claim_c6_fetch_independence (env : FetchEnv) (n : Nat) (pk : String)
    (q r : Option String) :
    ((∃ u k m, ClientCall.ingestion u k m ∈ (fetchCombinedStats env n pk q r).2.1)
       ↔ (truthyStr q).isSome)
    ∧ ((∃ u k m, ClientCall.execution u k m ∈ (fetchCombinedStats env n pk q r).2.1)
       ↔ (truthyStr r).isSome)
    ∧ (∀ qu ru, truthyStr q = some qu → truthyStr r = some ru →
        ∀ e, env.ingestFetch qu n pk = Except.error e →
          (fetchCombinedStats env n pk q r).2.1
              = [ClientCall.ingestion qu n pk, ClientCall.execution ru n pk]
          ∧ (fetchCombinedStats env n pk q r).1.ingestion_error = some e
          ∧ (∀ s2, env.execFetch ru n pk = Except.ok s2 →
              (fetchCombinedStats env n pk q r).1.execution_stats = some s2)
          ∧ (∀ e2, env.execFetch ru n pk = Except.error e2 →
              (fetchCombinedStats env n pk q r).1.execution_error = some e2)) := by
  rw [fetchCombinedStats_eq]
  cases hq : truthyStr q with
  | none =>
    cases hr : truthyStr r with
    | none => simp
    | some ru => cases hg : env.execFetch ru n pk <;> simp [hg]
  | some qu =>
    cases hf : env.ingestFetch qu n pk with
    | ok s =>
      cases hr : truthyStr r with
      | none => simp [hf]
      | some ru => cases hg : env.execFetch ru n pk <;> simp [hf, hg]
    | error e =>
      cases hr : truthyStr r with
      | none => simp [hf]
      | some ru =>
        cases hg : env.execFetch ru n pk <;>
          simp only [hf, hg] <;>
          refine ⟨⟨fun _ => rfl, fun _ => ⟨qu, n, pk, by simp⟩⟩,
                  ⟨fun _ => rfl, fun _ => ⟨ru, n, pk, by simp⟩⟩, ?_⟩ <;>
          intro qu2 ru2 hq2 hr2 e2 he2 <;>
          simp_all

/-- Witness for claim C6 at a concrete point: both endpoints
configured, ingestion failing, execution succeeding. -/
theorem claim_c6_fetch_independence_witness :
    ((∃ u k m, ClientCall.ingestion u k m
        ∈ (fetchCombinedStats mixedEnv 45 "63abc" (some "https://q.example") (some "https://r.example")).2.1)
       ↔ (truthyStr (some "https://q.example")).isSome)
    ∧ ((∃ u k m, ClientCall.execution u k m
        ∈ (fetchCombinedStats mixedEnv 45 "63abc" (some "https://q.example") (some "https://r.example")).2.1)
       ↔ (truthyStr (some "https://r.example")).isSome)
    ∧ (∀ qu ru, truthyStr (some "https://q.example") = some qu →
        truthyStr (some "https://r.example") = some ru →
        ∀ e, mixedEnv.ingestFetch qu 45 "63abc" = Except.error e →
          (fetchCombinedStats mixedEnv 45 "63abc" (some "https://q.example") (some "https://r.example")).2.1
              = [ClientCall.ingestion qu 45 "63abc", ClientCall.execution ru 45 "63abc"]
          ∧ (fetchCombinedStats mixedEnv 45 "63abc" (some "https://q.example") (some "https://r.example")).1.ingestion_error = some e
          ∧ (∀ s2, mixedEnv.execFetch ru 45 "63abc" = Except.ok s2 →
              (fetchCombinedStats mixedEnv 45 "63abc" (some "https://q.example") (some "https://r.example")).1.execution_stats = some s2)
          ∧ (∀ e2, mixedEnv.execFetch ru 45 "63abc" = Except.error e2 →
              (fetchCombinedStats mixedEnv 45 "63abc" (some "https://q.example") (some "https://r.example")).1.execution_error = some e2)) :=
  claim_c6_fetch_independence mixedEnv 45 "63abc" (some "https://q.example") (some "https://r.example")

/-! ## Claim C8 -/

/-- Claim C8: for every private key longer than 10 characters, the mask
is exactly the first 6 characters, `...`, and the last 4 characters —
the equality pins the whole output, so no other character of the key
appears, and the output length is always 13; the verbose display shows
the key only through this mask (under the `wallet_private_key` key). -/
theorem claim_c8_private_key_masking (v : String) (h : strLen v > 10) :
    maskSensitiveValue "wallet_private_key" v
        = strTake v 6 ++ "..." ++ strDrop v (strLen v - 4)
    ∧ strLen (maskSensitiveValue "wallet_private_key" v) = 13
    ∧ (∀ refinerIdNum queryApiUrl refineApiUrl,
        CliMessage.write (formatConfigPair "Private Key"
            (strTake v 6 ++ "..." ++ strDrop v (strLen v - 4)) ++ "\n")
          ∈ displayVerboseInfo refinerIdNum v queryApiUrl refineApiUrl) := by
  refine ⟨maskSensitiveValue_long h, maskSensitiveValue_long_length h, ?_⟩
  intro refinerIdNum queryApiUrl refineApiUrl
  rw [← maskSensitiveValue_long h]
  simp [displayVerboseInfo]

/-- Witness for claim C8 at a concrete 20-character key:
`0x123456789012345678` masks to `0x1234...5678`. -/
theorem claim_c8_private_key_masking_witness :
    strLen "0x123456789012345678" > 10
    ∧ maskSensitiveValue "wallet_private_key" "0x123456789012345678"
        = strTake "0x123456789012345678" 6 ++ "..."
            ++ strDrop "0x123456789012345678" (strLen "0x123456789012345678" - 4)
    ∧ maskSensitiveValue "wallet_private_key" "0x123456789012345678" = "0x1234...5678"
    ∧ strLen (maskSensitiveValue "wallet_private_key" "0x123456789012345678") = 13
    ∧ CliMessage.write (formatConfigPair "Private Key"
          (strTake "0x123456789012345678" 6 ++ "..."
            ++ strDrop "0x123456789012345678" (strLen "0x123456789012345678" - 4)) ++ "\n")
        ∈ displayVerboseInfo 45 "0x123456789012345678" (some "https://q.example") none :=
  ⟨by decide,
   (claim_c8_private_key_masking "0x123456789012345678" (by decide)).1,
   by decide,
   (claim_c8_private_key_masking "0x123456789012345678" (by decide)).2.1,
   (claim_c8_private_key_masking "0x123456789012345678" (by decide)).2.2 45
     (some "https://q.example") none⟩

/-! ## Claim C10 -/

/-- Counterexample to claim C10 as stated: the empty string has length
at most 10 under the `wallet_private_key` key, yet the code returns it
unchanged (the JavaScript truthiness guard `value` fails), not as
`first 4 ++ "..." ++ last 2`, which would be `"..."`. -/
theorem claim_c10_counterexample :
    strLen ("" : String) ≤ 10
    ∧ maskSensitiveValue "wallet_private_key" "" = ""
    ∧ maskSensitiveValue "wallet_private_key" ""
        ≠ strTake "" 4 ++ "..." ++ strDrop "" (strLen "" - 2) := by
  decide

/-- Claim C10 amended: for every non-empty value of length at most 10
masked under `wallet_private_key`, the mask is the first 4 characters,
`...`, and the last 2 characters; for non-empty values of length at
most 6 the prefix and suffix together cover the value, so every
character of the secret appears in the masked output. -/
theorem claim_c10_short_mask_amended (v : String) (hne : v ≠ "") (h : strLen v ≤ 10) :
    maskSensitiveValue "wallet_private_key" v
        = strTake v 4 ++ "..." ++ strDrop v (strLen v - 2)
    ∧ (strLen v ≤ 6 →
        ∀ c ∈ v.data, c ∈ (maskSensitiveValue "wallet_private_key" v).data) := by
  have hmask := maskSensitiveValue_short hne (by omega)
  refine ⟨hmask, ?_⟩
  intro h6 c hc
  rw [hmask]
  have hdata : (strTake v 4 ++ "..." ++ strDrop v (strLen v - 2)).data
      = v.data.take 4 ++ ('.' :: '.' :: '.' :: []) ++ v.data.drop (strLen v - 2) := rfl
  rw [hdata]
  rw [← List.take_append_drop 4 v.data] at hc
  rcases List.mem_append.mp hc with hc1 | hc2
  · exact List.mem_append.mpr (Or.inl (List.mem_append.mpr (Or.inl hc1)))
  · refine List.mem_append.mpr (Or.inr ?_)
    have hdd : v.data.drop 4 = (v.data.drop (strLen v - 2)).drop (4 - (strLen v - 2)) := by
      rw [List.drop_drop]
      congr 1
      have : strLen v = v.data.length := rfl
      omega
    rw [hdd] at hc2
    exact List.drop_subset _ _ hc2

/-- Witness for the amended claim C10 at the 5-character value
`abcde`, masked to `abcd...de`, in which every character appears. -/
theorem claim_c10_short_mask_amended_witness :
    ("abcde" : String) ≠ ""
    ∧ strLen "abcde" ≤ 10
    ∧ (maskSensitiveValue "wallet_private_key" "abcde"
          = strTake "abcde" 4 ++ "..." ++ strDrop "abcde" (strLen "abcde" - 2)
       ∧ (strLen "abcde" ≤ 6 →
           ∀ c ∈ ("abcde" : String).data,
             c ∈ (maskSensitiveValue "wallet_private_key" "abcde").data)) :=
  ⟨by decide, by decide, claim_c10_short_mask_amended "abcde" (by decide) (by decide)⟩

/-! ## Claim C4 -/

/-- Claim C4: both stats clients sign exactly the base-10 decimal
rendering of the refiner id — the signed message consists of decimal
digits only, evaluates positionally back to the id, has no leading zero
(for positive ids), and id 45 yields the message `"45"` — and signing
is deterministic: the signature is a pure function of the normalised
key and that message, so the same `(key, id)` pair always yields the
identical signature string (in the embedding the external EIP-191
signer is an arbitrary function `sign`, matching the deterministic
RFC-6979 signing `ethers` performs). -/
theorem claim_c4_signed_message (sign : String → String → String)
    (privateKey : String) (n : Nat) :
    statsSignature sign privateKey n
        = sign (formatPrivateKey privateKey) (signedStatsMessage n)
    ∧ (∀ c ∈ (signedStatsMessage n).data, ∃ d, d < 10 ∧ c = Char.ofNat (48 + d))
    ∧ digitsToNat 10 (signedStatsMessage n).data = n
    ∧ (0 < n → ∀ c, (signedStatsMessage n).data.head? = some c → c ≠ '0')
    ∧ signedStatsMessage 45 = "45"
    ∧ statsSignature sign privateKey n = statsSignature sign privateKey n := by
  refine ⟨rfl, ?_, ?_, ?_, rfl, rfl⟩
  · intro c hc
    exact natToString_data_all_digits hc
  · exact digitsToNat_natToString n
  · intro h0 c hc
    exact natToString_head_ne_zero h0 hc

/-- Witness for claim C4 at a concrete signer, key and id. -/
theorem claim_c4_signed_message_witness :
    statsSignature (fun k m => k ++ "|" ++ m) "63abc" 45
        = (fun k m => k ++ "|" ++ m) (formatPrivateKey "63abc") (signedStatsMessage 45)
    ∧ (∀ c ∈ (signedStatsMessage 45).data, ∃ d, d < 10 ∧ c = Char.ofNat (48 + d))
    ∧ digitsToNat 10 (signedStatsMessage 45).data = 45
    ∧ (0 < 45 → ∀ c, (signedStatsMessage 45).data.head? = some c → c ≠ '0')
    ∧ signedStatsMessage 45 = "45"
    ∧ statsSignature (fun k m => k ++ "|" ++ m) "63abc" 45
        = statsSignature (fun k m => k ++ "|" ++ m) "63abc" 45 :=
  claim_c4_signed_message (fun k m => k ++ "|" ++ m) "63abc" 45

/-! ## Claim C2 -/

/-- A string that denotes a decimal integer: an optional sign followed
by one or more decimal digits — the natural reading of "numeric" in
claim C2. -/
def decimalNumericString (s : String) : Bool :=
  let ds :=
    match s.data with
    | '-' :: rest => rest
    | '+' :: rest => rest
    | l => l
  ¬ ds.isEmpty ∧ ds.all (fun c => '0' ≤ c ∧ c ≤ '9')

/-- Counterexample to claim C2 as stated: `"12abc"` is not numeric,
yet `parseInt` accepts its numeric prefix, so validation yields 12
instead of rejecting, and the command proceeds to a network call
(non-empty client-call trace) instead of exiting 1. -/
theorem claim_c2_counterexample :
    decimalNumericString "12abc" = false
    ∧ validateRefinerId "12abc" = some 12
    ∧ (execute simplePlatform (fun _ => none) failingEnv
        { refinerId := "12abc", privateKey := some "6363636363",
          queryEndpoint := some "https://q.example" }).2.2
        = [ClientCall.ingestion "https://q.example" 12 "6363636363"]
    ∧ (execute simplePlatform (fun _ => none) failingEnv
        { refinerId := "12abc", privateKey := some "6363636363",
          queryEndpoint := some "https://q.example" }).1 ≠ 1 := by
  decide

/-- Claim C2 amended: validation rejects exactly the inputs whose
`parseInt` value is `NaN` or negative — in particular `"abc"`, `"-1"`
and `""` are rejected, every canonical non-negative decimal numeral is
accepted with its value, and a rejected input makes the command exit 1
with the validation error before any network call (empty trace); but a
non-numeric string with a parseable numeric prefix (such as `"12abc"`)
is accepted with the value of that prefix. -/
theorem claim_c2_validation_amended (s : String) :
    (validateRefinerId s = none ↔
        jsParseInt s = none ∨ ∃ i, jsParseInt s = some i ∧ i < 0)
    ∧ validateRefinerId "abc" = none
    ∧ validateRefinerId "-1" = none
    ∧ validateRefinerId "" = none
    ∧ (∀ n : Nat, validateRefinerId (natToString n) = some (n : Int))
    ∧ (∀ plat config env opts, validateRefinerId opts.refinerId = none →
        execute plat config env opts
          = (1, [CliMessage.error "Invalid refiner ID. Must be a non-negative number."], [])) := by
  refine ⟨?_, by decide, by decide, by decide, ?_, ?_⟩
  · rw [validateRefinerId]
    cases hp : jsParseInt s with
    | none => simp
    | some i =>
      by_cases hi : i < 0
      · simp [hi]
      · simp only [if_neg hi]
        simp
        omega
  · intro n
    have hparse : jsParseInt (natToString n)
        = some ((digitsToNat 10 (natToString n).data : Nat) : Int) := by
      have h := jsParseInt_digits (l := (natToString n).data)
        (fun c hc => natToString_data_all_digits hc) (natToString_data_ne_nil n)
      simpa using h
    rw [validateRefinerId, hparse, digitsToNat_natToString]
    simp
  · intro plat config env opts hv
    simp [execute, hv]

/-! ## Claim C9 -/

/-- A concrete ingestion-stats response (the shape of the repository's
`EXAMPLE_REFINER_STATS`). -/
def sampleIngestStats : RefinerIngestionStatsResponse :=
  { refiner_id := 45, total_file_contributions := 234, total_data_rows := 15420,
    first_ingestion_at := some "2024-01-15T10:30:00Z",
    last_ingestion_at := some "2024-01-20T14:45:00Z",
    total_queries_executed := 87, successful_queries := 82, failed_queries := 5,
    query_errors_by_type := [("SQL_VALIDATION_ERROR", 3), ("PERMISSION_ERROR", 2)],
    average_ingestion_rate_per_hour := 2, ingestion_period_days := some 5,
    unique_contributors := 234,
    rows_per_table := [("users", 5420), ("posts", 8000), ("comments", 2000)],
    last_processed_block := some 2945678 }

/-- A combined result with both sources populated, used to instantiate
witnesses. -/
def sampleCombined : CombinedRefinerStats :=
  { refiner_id := 45, ingestion_stats := some sampleIngestStats,
    execution_stats := some sampleExecStats,
    ingestion_error := none, execution_error := none }

/-- Claim C9: the error-analysis section renders every error-type tally
sorted by descending count — the rendered order is a permutation of the
entries, pairwise non-increasing in the counts, and entries with equal
counts keep their encounter order (the filter at each count is
unchanged) — and displays at most the first 3 recent execution error
records; the section is assembled from exactly these blocks. -/
theorem claim_c9_error_analysis_order (plat : Platform) (l : List (String × Nat))
    (es : RefinerExecutionStatsResponse) (cs : CombinedRefinerStats) :
    (tallyLines plat l
        = (sortByCountDesc l).map
            (fun p => CliMessage.write ("  " ++ formatConfigPair p.1 (plat.numToLocale p.2) ++ "\n"))
      ∧ (sortByCountDesc l).Pairwise (fun a b => b.2 ≤ a.2)
      ∧ (sortByCountDesc l).Perm l
      ∧ (∀ c : Nat, (sortByCountDesc l).filter (fun p => p.2 == c)
          = l.filter (fun p => p.2 == c)))
    ∧ ((es.recent_errors.take 3).length ≤ 3
      ∧ es.recent_errors.take 3 ++ es.recent_errors.drop 3 = es.recent_errors
      ∧ recentErrorBlock plat es
          = (if es.recent_errors.length > 0 then
               CliMessage.write "\nRecent Execution Errors:\n"
                 :: ((es.recent_errors.take 3).enum.map
                      (fun p => recentErrorLines plat p.1 p.2)).flatten
             else []))
    ∧ (∀ is2, cs.ingestion_stats = some is2 → cs.execution_stats = some es →
        is2.query_errors_by_type ≠ [] → es.error_types ≠ [] →
        displayCombinedErrorAnalysis plat cs
          = [CliMessage.write ("\n" ++ formatTitle "❌ Error Analysis" ++ "\n")]
            ++ (CliMessage.write "Query Errors:\n" :: tallyLines plat is2.query_errors_by_type)
            ++ (CliMessage.write "Execution Errors:\n" :: tallyLines plat es.error_types)
            ++ recentErrorBlock plat es) := by
  refine ⟨⟨rfl, sortByCountDesc_pairwise l, sortByCountDesc_perm l,
          fun c => sortByCountDesc_filter c l⟩,
        ⟨by simp [List.length_take], List.take_append_drop 3 es.recent_errors, rfl⟩, ?_⟩
  intro is2 his hes hqne hene
  have hql : is2.query_errors_by_type.length > 0 := List.length_pos.mpr hqne
  have hel : es.error_types.length > 0 := List.length_pos.mpr hene
  simp [displayCombinedErrorAnalysis, his, hes, hql, hel]

/-- Witness for claim C9 at a concrete combined result with tallies in
both sources and four recent error records. -/
theorem claim_c9_error_analysis_order_witness :
    (tallyLines simplePlatform sampleIngestStats.query_errors_by_type
        = (sortByCountDesc sampleIngestStats.query_errors_by_type).map
            (fun p => CliMessage.write ("  " ++ formatConfigPair p.1 (simplePlatform.numToLocale p.2) ++ "\n"))
      ∧ (sortByCountDesc sampleIngestStats.query_errors_by_type).Pairwise (fun a b => b.2 ≤ a.2)
      ∧ (sortByCountDesc sampleIngestStats.query_errors_by_type).Perm sampleIngestStats.query_errors_by_type
      ∧ (∀ c : Nat, (sortByCountDesc sampleIngestStats.query_errors_by_type).filter (fun p => p.2 == c)
          = sampleIngestStats.query_errors_by_type.filter (fun p => p.2 == c)))
    ∧ ((sampleExecStats.recent_errors.take 3).length ≤ 3
      ∧ sampleExecStats.recent_errors.take 3 ++ sampleExecStats.recent_errors.drop 3
          = sampleExecStats.recent_errors
      ∧ recentErrorBlock simplePlatform sampleExecStats
          = (if sampleExecStats.recent_errors.length > 0 then
               CliMessage.write "\nRecent Execution Errors:\n"
                 :: ((sampleExecStats.recent_errors.take 3).enum.map
                      (fun p => recentErrorLines simplePlatform p.1 p.2)).flatten
             else []))
    ∧ (∀ is2, sampleCombined.ingestion_stats = some is2 →
        sampleCombined.execution_stats = some sampleExecStats →
        is2.query_errors_by_type ≠ [] → sampleExecStats.error_types ≠ [] →
        displayCombinedErrorAnalysis simplePlatform sampleCombined
          = [CliMessage.write ("\n" ++ formatTitle "❌ Error Analysis" ++ "\n")]
            ++ (CliMessage.write "Query Errors:\n"
                  :: tallyLines simplePlatform is2.query_errors_by_type)
            ++ (CliMessage.write "Execution Errors:\n"
                  :: tallyLines simplePlatform sampleExecStats.error_types)
            ++ recentErrorBlock simplePlatform sampleExecStats) :=
  claim_c9_error_analysis_order simplePlatform sampleIngestStats.query_errors_by_type
    sampleExecStats sampleCombined

/-! ## Claim C1 -/

/-- Claim C1: in a run that reaches the fetch stage (valid id, resolved
configuration — which guarantees at least one endpoint), if every
attempted fetch fails then the command exits 0 and emits the
`No data found` warning rather than failing hard. -/
theorem claim_c1_no_data_exit_zero (plat : Platform) (config : String → Option String)
    (env : FetchEnv) (opts : CmdOptions) (idInt : Int) (pk : String)
    (qUrl rUrl : Option String)
    (hid : validateRefinerId opts.refinerId = some idInt)
    (hcfg : (getConfiguration config opts).1 = some (pk, qUrl, rUrl))
    (hq : ∀ u, truthyStr qUrl = some u →
        ∃ e, env.ingestFetch u idInt.toNat pk = Except.error e)
    (hr : ∀ u, truthyStr rUrl = some u →
        ∃ e, env.execFetch u idInt.toNat pk = Except.error e) :
    (execute plat config env opts).1 = 0
    ∧ CliMessage.warning "No data found for this refiner in either service"
        ∈ (execute plat config env opts).2.1 := by
  have hfull : getConfiguration config opts
      = (some (pk, qUrl, rUrl), (getConfiguration config opts).2) := by
    rw [← hcfg]
  have hin : (fetchCombinedStats env idInt.toNat pk qUrl rUrl).1.ingestion_stats = none := by
    rw [fetchCombinedStats_eq]
    cases hqq : truthyStr qUrl with
    | none => simp
    | some u =>
      rcases hq u hqq with ⟨e, he⟩
      simp [he]
  have hex : (fetchCombinedStats env idInt.toNat pk qUrl rUrl).1.execution_stats = none := by
    rw [fetchCombinedStats_eq]
    cases hrr : truthyStr rUrl with
    | none => simp
    | some u =>
      rcases hr u hrr with ⟨e, he⟩
      simp [he]
  simp only [execute, hid]
  rw [hfull]
  simp only [hin, hex]
  simp

/-- Witness for claim C1: id 7, only the query-engine endpoint
configured, both clients failing. -/
theorem claim_c1_no_data_exit_zero_witness :
    validateRefinerId "7" = some 7
    ∧ (getConfiguration (fun _ => none)
        { refinerId := "7", privateKey := some "6363636363",
          queryEndpoint := some "https://q.example" }).1
        = some ("6363636363", some "https://q.example", none)
    ∧ (∀ u, truthyStr (some "https://q.example") = some u →
        ∃ e, failingEnv.ingestFetch u (7 : Int).toNat "6363636363" = Except.error e)
    ∧ (∀ u, truthyStr (none : Option String) = some u →
        ∃ e, failingEnv.execFetch u (7 : Int).toNat "6363636363" = Except.error e)
    ∧ (execute simplePlatform (fun _ => none) failingEnv
        { refinerId := "7", privateKey := some "6363636363",
          queryEndpoint := some "https://q.example" }).1 = 0
    ∧ CliMessage.warning "No data found for this refiner in either service"
        ∈ (execute simplePlatform (fun _ => none) failingEnv
            { refinerId := "7", privateKey := some "6363636363",
              queryEndpoint := some "https://q.example" }).2.1 :=
  ⟨by decide, by decide,
   fun _ _ => ⟨"Service unavailable", rfl⟩,
   fun _ _ => ⟨"Service unavailable", rfl⟩,
   (claim_c1_no_data_exit_zero simplePlatform (fun _ => none) failingEnv
     { refinerId := "7", privateKey := some "6363636363",
       queryEndpoint := some "https://q.example" } 7 "6363636363"
     (some "https://q.example") none (by decide) (by decide)
     (fun _ _ => ⟨"Service unavailable", rfl⟩)
     (fun _ _ => ⟨"Service unavailable", rfl⟩)).1,
   (claim_c1_no_data_exit_zero simplePlatform (fun _ => none) failingEnv
     { refinerId := "7", privateKey := some "6363636363",
       queryEndpoint := some "https://q.example" } 7 "6363636363"
     (some "https://q.example") none (by decide) (by decide)
     (fun _ _ => ⟨"Service unavailable", rfl⟩)
     (fun _ _ => ⟨"Service unavailable", rfl⟩)).2⟩

/-! ## Claim C3 -/

/-- Claim C3: in a run with a valid id and a resolvable private key,
if neither endpoint resolves the command exits 1 with the error
instructing how to configure an endpoint (plus the example commands)
and no stats client is ever invoked (empty trace); if exactly one
endpoint resolves, configuration is accepted with that endpoint. -/
theorem claim_c3_missing_endpoints (plat : Platform) (config : String → Option String)
    (env : FetchEnv) (opts : CmdOptions) (idInt : Int) (pk : String)
    (hid : validateRefinerId opts.refinerId = some idInt)
    (hpk : resolveField opts.privateKey (config "wallet_private_key") = some pk) :
    ((resolveField opts.queryEndpoint (config "query_engine_endpoint") = none →
      resolveField opts.refineEndpoint (config "refinement_service_endpoint") = none →
        (execute plat config env opts).1 = 1
        ∧ CliMessage.error
            "At least one API endpoint is required (Query Engine or Refinement Service)."
            ∈ (execute plat config env opts).2.1
        ∧ CliMessage.write (outputExamples "Set API endpoints with"
            ["vana config set query_engine_endpoint https://query-engine.api.com",
             "vana config set refinement_service_endpoint https://refine.api.com",
             "or use --query-endpoint and --refine-endpoint options"])
            ∈ (execute plat config env opts).2.1
        ∧ (execute plat config env opts).2.2 = []))
    ∧ (∀ u, resolveField opts.queryEndpoint (config "query_engine_endpoint") = some u →
        resolveField opts.refineEndpoint (config "refinement_service_endpoint") = none →
        (getConfiguration config opts).1 = some (pk, some u, none))
    ∧ (∀ u, resolveField opts.queryEndpoint (config "query_engine_endpoint") = none →
        resolveField opts.refineEndpoint (config "refinement_service_endpoint") = some u →
        (getConfiguration config opts).1 = some (pk, none, some u)) := by
  refine ⟨?_, ?_, ?_⟩
  · intro hq hr
    have hgc : getConfiguration config opts
        = (none,
           [CliMessage.error
              "At least one API endpoint is required (Query Engine or Refinement Service).",
            CliMessage.write (outputExamples "Set API endpoints with"
              ["vana config set query_engine_endpoint https://query-engine.api.com",
               "vana config set refinement_service_endpoint https://refine.api.com",
               "or use --query-endpoint and --refine-endpoint options"])]) := by
      simp [getConfiguration, hpk, hq, hr]
    simp [execute, hid, hgc]
  · intro u hq hr
    simp [getConfiguration, hpk, hq, hr]
  · intro u hq hr
    simp [getConfiguration, hpk, hq, hr]

/-- Witness for claim C3: id 7, a private key given on the command
line, nothing configured — the endpoint error fires with exit 1 and an
empty client-call trace. -/
theorem claim_c3_missing_endpoints_witness :
    validateRefinerId "7" = some 7
    ∧ resolveField (some "6363636363") ((fun _ => (none : Option String)) "wallet_private_key")
        = some "6363636363"
    ∧ ((resolveField (none : Option String) ((fun _ => (none : Option String)) "query_engine_endpoint") = none →
        resolveField (none : Option String) ((fun _ => (none : Option String)) "refinement_service_endpoint") = none →
          (execute simplePlatform (fun _ => none) failingEnv
              { refinerId := "7", privateKey := some "6363636363" }).1 = 1
          ∧ CliMessage.error
              "At least one API endpoint is required (Query Engine or Refinement Service)."
              ∈ (execute simplePlatform (fun _ => none) failingEnv
                  { refinerId := "7", privateKey := some "6363636363" }).2.1
          ∧ CliMessage.write (outputExamples "Set API endpoints with"
              ["vana config set query_engine_endpoint https://query-engine.api.com",
               "vana config set refinement_service_endpoint https://refine.api.com",
               "or use --query-endpoint and --refine-endpoint options"])
              ∈ (execute simplePlatform (fun _ => none) failingEnv
                  { refinerId := "7", privateKey := some "6363636363" }).2.1
          ∧ (execute simplePlatform (fun _ => none) failingEnv
              { refinerId := "7", privateKey := some "6363636363" }).2.2 = [])) :=
  ⟨by decide, by decide,
   ((claim_c3_missing_endpoints simplePlatform (fun _ => none) failingEnv
      { refinerId := "7", privateKey := some "6363636363" } 7 "6363636363"
      (by decide) (by decide)).1)⟩

/-! ## Claim C7 -/

/-- Counterexample to claim C7 as stated: the body `"null"` is valid
JSON, carries neither a `detail` nor a `message` field, and the claim
therefore prescribes the HTTP fallback — but the code's property access
on `null` throws, is caught, and the raw body text `"null"` becomes the
error message instead. -/
theorem claim_c7_counterexample :
    clientErrorMessage ⟨500, "Internal Server Error", "null"⟩ = "null"
    ∧ claimC7ErrorMessage ⟨500, "Internal Server Error", "null"⟩
        = "HTTP 500: Internal Server Error"
    ∧ clientErrorMessage ⟨500, "Internal Server Error", "null"⟩
        ≠ claimC7ErrorMessage ⟨500, "Internal Server Error", "null"⟩ :=
  ⟨rfl, rfl, by decide⟩

/-- Claim C7 amended: for every non-2xx response whose body does not
parse to JSON `null`, the raised message is exactly as the claim
states — the truthy `detail` field of the JSON-parsed body, else the
truthy `message` field, else (only when the body is not valid JSON) the
non-empty raw body, else `"HTTP {status}: {statusText}"`; a body
parsing to JSON `null` (whose field access throws a caught `TypeError`)
instead yields the raw body text. -/
theorem claim_c7_error_message_amended (r : HttpResponse) :
    (jsonParse r.body ≠ some JsValue.null →
        clientErrorMessage r = claimC7ErrorMessage r)
    ∧ (jsonParse r.body = some JsValue.null → clientErrorMessage r = r.body) := by
  constructor
  · intro h
    rw [clientErrorMessage, claimC7ErrorMessage]
    cases hp : jsonParse r.body with
    | none => rfl
    | some v =>
      cases v with
      | null => exact absurd hp h
      | bool b => rfl
      | num raw => rfl
      | str s => rfl
      | arr xs => rfl
      | obj fields => rfl
  · intro h
    have hbody : r.body ≠ "" := by
      intro h0
      rw [h0] at h
      have hnil : jsonParse "" = none := rfl
      rw [hnil] at h
      exact Option.noConfusion h
    rw [clientErrorMessage, h]
    simp [hbody]

/-- Witness for the amended claim C7 at the `"null"` body. -/
theorem claim_c7_error_message_amended_witness :
    (jsonParse ("null" : String) ≠ some JsValue.null →
        clientErrorMessage ⟨500, "Internal Server Error", "null"⟩
          = claimC7ErrorMessage ⟨500, "Internal Server Error", "null"⟩)
    ∧ (jsonParse ("null" : String) = some JsValue.null →
        clientErrorMessage ⟨500, "Internal Server Error", "null"⟩ = "null") :=
  claim_c7_error_message_amended ⟨500, "Internal Server Error", "null"⟩

end Vana
